import Mathlib

/-!
A verification development for the COMSET ride-hailing simulator.
Python floats are modelled as rationals (`ℚ`), Python ints as `Int`/`Nat`,
and fallible code (assertions, raised exceptions, list index errors) by
`Option`/`Except`.  Each definition is a shallow embedding of the function
of the same name in the source tree.
-/

namespace COMSET

/-- Python-style exceptional outcomes used throughout the embedding. -/
inductive PyErr where
  | valueError
  | indexError
  | assertionError
  | zeroDivision
  | fuelExhausted
  deriving DecidableEq

deriving instance DecidableEq for Except

/-- Python list indexing: a negative index wraps from the end, an index out of
range raises IndexError (modelled as `none`). -/
def pyGet {α : Type} (l : List α) (i : Int) : Option α :=
  if 0 ≤ i then l.get? i.toNat
  else if 0 ≤ i + l.length then l.get? (i + l.length).toNat
  else none

/-- Python `round`: round half to even (banker's rounding). -/
def pythonRound (q : ℚ) : Int :=
  let f := ⌊q⌋
  let frac := q - f
  if frac < 1/2 then f
  else if 1/2 < frac then f + 1
  else if f % 2 = 0 then f else f + 1

/-! ## Events (COMSETsystem/Event.py, AgentEvent.py, ResourceEvent.py) -/

/-- The fields of `Event` relevant to queue ordering: `_id`, `time`,
`_priority` (`Event.__slots__`). -/
structure Event where
  id : Nat
  time : Int
  priority : Nat
  deriving DecidableEq

/-- `Event.AGENT_EVENT_PRIORITY = 0`. -/
def AGENT_EVENT_PRIORITY : Nat := 0

/-- `Event.DEFAULT_EVENT_PRIORITY = 1`, the default of the `priority`
parameter of `Event.__init__`. -/
def DEFAULT_EVENT_PRIORITY : Nat := 1

/-- `AgentEvent.__init__` calls
`super().__init__(started_search, simulator, fleet_manager)` without a
`priority` argument, so the event gets `DEFAULT_EVENT_PRIORITY`. -/
def mkAgentEvent (id : Nat) (started_search : Int) : Event :=
  { id := id, time := started_search, priority := DEFAULT_EVENT_PRIORITY }

/-- `ResourceEvent.__init__` calls
`super().__init__(available_time, simulator, fleet_manager)` without a
`priority` argument, so the event gets `DEFAULT_EVENT_PRIORITY`. -/
def mkResourceEvent (id : Nat) (available_time : Int) : Event :=
  { id := id, time := available_time, priority := DEFAULT_EVENT_PRIORITY }

/-- `Event.__lt__`: lexicographic on (time, priority, id); if all three agree
the code hits `assert False` (duplicate event), modelled as `none`. -/
def event_lt (a b : Event) : Option Bool :=
  if a.time ≠ b.time then some (decide (a.time < b.time))
  else if a.priority ≠ b.priority then some (decide (a.priority < b.priority))
  else if a.id ≠ b.id then some (decide (a.id < b.id))
  else none

/-! ## The event queue (COMSETsystem/Simulator.py) -/

/-- The part of `Simulator` state that `add_event` reads and writes; the heap
is modelled as the list of queued events (heap order is irrelevant to the
claims below). -/
structure SimQueue where
  events : List Event
  simulation_time : Int
  deriving DecidableEq

/-- `Simulator.add_event`: raise `ValueError` when the event time is in the
past, otherwise `heapq.heappush` the event.  The raise happens before the
push, so on error the queue is untouched (no state is produced). -/
def add_event (s : SimQueue) (e : Event) : Except PyErr SimQueue :=
  if e.time < s.simulation_time then .error .valueError
  else .ok { s with events := e :: s.events }

/-! ## Empty / serving agent sets (COMSETsystem/Simulator.py) -/

/-- The two agent sets owned by `Simulator`; agents are identified by event
id. -/
structure AgentSets where
  empty_agents : Finset Nat
  serving_agents : Finset Nat

/-- `Simulator.mark_agent_empty`: remove from `serving_agents` when present,
then add to `empty_agents`. -/
def mark_agent_empty (s : AgentSets) (a : Nat) : AgentSets :=
  { empty_agents := insert a s.empty_agents
    serving_agents := s.serving_agents.erase a }

/-- `Simulator.mark_agent_serving`: remove from `empty_agents` when present,
then add to `serving_agents`. -/
def mark_agent_serving (s : AgentSets) (a : Nat) : AgentSets :=
  { empty_agents := s.empty_agents.erase a
    serving_agents := insert a s.serving_agents }

/-- `AgentEvent._assign_resource` touches the two sets only through
`simulator.mark_agent_serving(self)`. -/
def assign_resource_sets (s : AgentSets) (a : Nat) : AgentSets :=
  mark_agent_serving s a

/-- `AgentEvent._unassign_resource` touches the two sets only through
`simulator.mark_agent_empty(self)`. -/
def unassign_resource_sets (s : AgentSets) (a : Nat) : AgentSets :=
  mark_agent_empty s a

/-- Every operation of the running program that can touch the two sets. -/
inductive AgentSetOp where
  | markEmpty (a : Nat)
  | markServing (a : Nat)
  | assign (a : Nat)
  | unassign (a : Nat)

def apply_agent_set_op (s : AgentSets) : AgentSetOp → AgentSets
  | .markEmpty a => mark_agent_empty s a
  | .markServing a => mark_agent_serving s a
  | .assign a => assign_resource_sets s a
  | .unassign a => unassign_resource_sets s a

/-- Both sets start out empty in `Simulator.__init__`. -/
def initial_agent_sets : AgentSets :=
  { empty_agents := ∅, serving_agents := ∅ }

def run_agent_set_ops (ops : List AgentSetOp) : AgentSets :=
  ops.foldl apply_agent_set_op initial_agent_sets

lemma disjoint_preserved (s : AgentSets) (op : AgentSetOp)
    (h : s.empty_agents ∩ s.serving_agents = ∅) :
    (apply_agent_set_op s op).empty_agents ∩
      (apply_agent_set_op s op).serving_agents = ∅ := by
  have key : ∀ x, ¬(x ∈ s.empty_agents ∧ x ∈ s.serving_agents) := by
    intro x hx
    have : x ∈ s.empty_agents ∩ s.serving_agents := Finset.mem_inter.mpr hx
    simp [h] at this
  have key2 : ∀ x, x ∈ s.empty_agents → x ∈ s.serving_agents → False := by
    intro x h1 h2
    exact key x ⟨h1, h2⟩
  have hE : ∀ a, insert a s.empty_agents ∩ s.serving_agents.erase a = ∅ := by
    intro a
    apply Finset.eq_empty_iff_forall_not_mem.mpr
    intro x hx
    rcases Finset.mem_inter.mp hx with ⟨h1, h2⟩
    rcases Finset.mem_insert.mp h1 with rfl | h1
    · exact (Finset.mem_erase.mp h2).1 rfl
    · exact key2 x h1 (Finset.mem_erase.mp h2).2
  have hS : ∀ a, s.empty_agents.erase a ∩ insert a s.serving_agents = ∅ := by
    intro a
    apply Finset.eq_empty_iff_forall_not_mem.mpr
    intro x hx
    rcases Finset.mem_inter.mp hx with ⟨h1, h2⟩
    rcases Finset.mem_insert.mp h2 with rfl | h2
    · exact (Finset.mem_erase.mp h1).1 rfl
    · exact key2 x (Finset.mem_erase.mp h1).2 h2
  cases op with
  | markEmpty a => simpa [apply_agent_set_op, mark_agent_empty] using hE a
  | markServing a => simpa [apply_agent_set_op, mark_agent_serving] using hS a
  | assign a =>
      simpa [apply_agent_set_op, assign_resource_sets, mark_agent_serving] using hS a
  | unassign a =>
      simpa [apply_agent_set_op, unassign_resource_sets, mark_agent_empty] using hE a

lemma foldl_disjoint (ops : List AgentSetOp) (s : AgentSets)
    (h : s.empty_agents ∩ s.serving_agents = ∅) :
    (ops.foldl apply_agent_set_op s).empty_agents ∩
      (ops.foldl apply_agent_set_op s).serving_agents = ∅ := by
  induction ops generalizing s with
  | nil => exact h
  | cons op rest ih =>
      exact ih _ (disjoint_preserved s op h)

/-! ## Road assembly (COMSETsystem/Road.py, Link.py) -/

/-- The `Link` fields relevant to road assembly.  `travel_time` is set to
`length / speed` by the regular `Link` constructor; `begin_time` is filled
in by `Road.add_link`. -/
structure Link where
  id : Nat
  length : ℚ
  speed : ℚ
  travel_time : ℚ
  begin_time : ℚ
  deriving DecidableEq

/-- A `Road`: endpoints are intersection ids, geometry is the link list.
The source fields are `from_` and `to`; `to` is reserved here, hence `to_`. -/
structure Road where
  id : Nat
  from_ : Nat
  to_ : Nat
  length : ℚ
  travel_time : ℚ
  speed : ℚ
  links : List Link
  deriving DecidableEq

/-- `Road.__init__` with `original=None`: an empty road with
`length = travel_time = 0` and no links (the loader later sets the
endpoint intersections). -/
def empty_road (rid fromI toI : Nat) : Road :=
  { id := rid, from_ := fromI, to_ := toI,
    length := 0, travel_time := 0, speed := 0, links := [] }

/-- `Road.add_link`: append the link, record its `begin_time` as the current
cumulative `travel_time`, and accumulate length and travel time. -/
def add_link (r : Road) (l : Link) : Road :=
  { r with
    links := r.links ++ [{ l with begin_time := r.travel_time }]
    length := r.length + l.length
    travel_time := r.travel_time + l.travel_time }

/-- `Road.set_speed`: `speed = length / travel_time`. -/
def set_speed (r : Road) : Road :=
  { r with speed := r.length / r.travel_time }

/-- A road built the way the loader builds one: a sequence of `add_link`
calls on an empty road, followed by `set_speed`. -/
def build_road (rid fromI toI : Nat) (ls : List Link) : Road :=
  set_speed (ls.foldl add_link (empty_road rid fromI toI))

/-- The links of a fold of `add_link`, with their begin times written out:
`annotate_begin_times t ls` stamps each link with the cumulative travel time
starting from `t`. -/
def annotate_begin_times (t : ℚ) : List Link → List Link
  | [] => []
  | l :: ls => { l with begin_time := t } :: annotate_begin_times (t + l.travel_time) ls

lemma foldl_add_link_spec (ls : List Link) (r : Road) :
    (ls.foldl add_link r).length = r.length + (ls.map Link.length).sum ∧
    (ls.foldl add_link r).travel_time = r.travel_time + (ls.map Link.travel_time).sum ∧
    (ls.foldl add_link r).links = r.links ++ annotate_begin_times r.travel_time ls ∧
    (ls.foldl add_link r).id = r.id ∧
    (ls.foldl add_link r).speed = r.speed := by
  induction ls generalizing r with
  | nil => simp [annotate_begin_times]
  | cons l rest ih =>
      obtain ⟨h1, h2, h3, h4, h5⟩ := ih (add_link r l)
      rw [List.foldl_cons]
      refine ⟨?_, ?_, ?_, ?_, ?_⟩
      · rw [h1]; simp only [add_link, List.map_cons, List.sum_cons]; ring
      · rw [h2]; simp only [add_link, List.map_cons, List.sum_cons]; ring
      · rw [h3]
        simp only [add_link, annotate_begin_times, List.append_assoc, List.singleton_append]
      · rw [h4]; simp only [add_link]
      · rw [h5]; simp only [add_link]

lemma annotate_begin_times_length (t : ℚ) (ls : List Link) :
    (annotate_begin_times t ls).length = ls.length := by
  induction ls generalizing t with
  | nil => simp [annotate_begin_times]
  | cons l rest ih => simp [annotate_begin_times, ih]

lemma annotate_begin_times_get (ls : List Link) (t : ℚ) (i : Nat)
    (h : i < (annotate_begin_times t ls).length) :
    ((annotate_begin_times t ls).get ⟨i, h⟩).begin_time =
      t + ((ls.take i).map Link.travel_time).sum := by
  induction ls generalizing t i with
  | nil => simp [annotate_begin_times] at h
  | cons l rest ih =>
      cases i with
      | zero => simp [annotate_begin_times]
      | succ j =>
          have hj : j < (annotate_begin_times (t + l.travel_time) rest).length := by
            simpa [annotate_begin_times] using h
          have := ih (t + l.travel_time) j hj
          simp only [annotate_begin_times, List.get_cons_succ, this, List.take_succ_cons,
            List.map_cons, List.sum_cons]
          ring

/-! ## LocationOnRoad (COMSETsystem/LocationOnRoad.py, DataParsing/MapWithData.py) -/

structure LocationOnRoad where
  road : Road
  distance_from_start_intersection : ℚ
  deriving DecidableEq

/-- `LocationOnRoad.__init__`, Road mode: store the pair.  This branch
performs no bound check on the distance. -/
def locationOnRoad_of_road (road : Road) (distance : ℚ) : LocationOnRoad :=
  { road := road, distance_from_start_intersection := distance }

/-- `LocationOnRoad.__init__`, displacement mode: asserts
`0 ≤ distance ≤ road.length`. -/
def locationOnRoad_of_location (location : LocationOnRoad) (displacement : ℚ) :
    Except PyErr LocationOnRoad :=
  let d := location.distance_from_start_intersection + displacement
  if 0 ≤ d ∧ d ≤ location.road.length then
    .ok { road := location.road, distance_from_start_intersection := d }
  else .error .assertionError

/-- `LocationOnRoad.create_from_road_end`. -/
def create_from_road_end (road : Road) : LocationOnRoad :=
  locationOnRoad_of_road road road.length

/-- `LocationOnRoad.create_from_road_start`. -/
def create_from_road_start (road : Road) : LocationOnRoad :=
  locationOnRoad_of_road road 0

/-- `LocationOnRoad.get_displacement_on_road`: asserts both locations are on
the same road (compared by road id). -/
def get_displacement_on_road (src dst : LocationOnRoad) : Except PyErr ℚ :=
  if src.road.id = dst.road.id then
    .ok (dst.distance_from_start_intersection - src.distance_from_start_intersection)
  else .error .assertionError

/-- `MapWithData._process_batch`: the map-matched location of a resource is
constructed as `LocationOnRoad(link.road, link.begin_time)` — the nearest
link's `begin_time` (a cumulative travel time within the road) is passed as
the distance from the start intersection. -/
def process_batch_match (road : Road) (link : Link) : LocationOnRoad :=
  locationOnRoad_of_road road link.begin_time

/-- `MapWithData.place_agents_randomly`: each agent's initial location is
`LocationOnRoad(road, distance)` with `distance = generator.uniform(0, road.length)`. -/
def place_agent (road : Road) (distance : ℚ) : LocationOnRoad :=
  locationOnRoad_of_road road distance

/-- A road the loader can legitimately build: two links, the first 10 m long
with a 0.5 m/s speed limit (travel time 20 s), the second 1 m at 1 m/s
(travel time 1 s).  Total length 11 m; the second link's begin time is 20. -/
def slowRoad : Road :=
  build_road 0 0 1 [⟨0, 10, 1/2, 20, 0⟩, ⟨1, 1, 1, 1, 0⟩]

/-! ## Assignment validation (AgentEvent.py, ResourceEvent.py, AgentAction.py) -/

/-- `AgentAction.Type`. -/
inductive AgentActionType where
  | NONE
  | ASSIGN
  | ABORT
  deriving DecidableEq

/-- `AgentAction`: agent id, resource id, type. -/
structure AgentAction where
  agent_id : Int
  res_id : Int
  type : AgentActionType
  deriving DecidableEq

/-- `ResourceEvent.State`. -/
inductive ResourceState where
  | AVAILABLE
  | EXPIRED
  deriving DecidableEq

/-- The `ResourceEvent` fields the lifecycle claims depend on. -/
structure ResourceEventRec where
  state : ResourceState
  time : Int
  available_time : Int
  expiration_time : Int
  pickup_time : Int
  deriving DecidableEq

/-- `ResourceEvent.__init__`: available, scheduled at its available time,
`expiration_time = available_time + resource_maximum_life_time`,
`pickup_time = -1`. -/
def init_resource_event (available_time max_life : Int) : ResourceEventRec :=
  { state := .AVAILABLE, time := available_time, available_time := available_time,
    expiration_time := available_time + max_life, pickup_time := -1 }

/-- `ResourceEvent.is_picked_up`. -/
def is_picked_up (r : ResourceEventRec) : Bool := r.pickup_time > 0

/-- The `AgentEvent` fields the assignment guard reads. -/
structure AgentEventRec where
  is_pickup : Bool
  assigned_resource : Option Int
  deriving DecidableEq

/-- `AgentEvent.has_res_pickup`. -/
def has_res_pickup (a : AgentEventRec) : Bool := a.is_pickup

/-- `AgentEvent._is_valid_assignment_action`: the action is non-None, both
ids resolve in `agent_map` / `res_map`, the agent is not carrying a resource
(`has_res_pickup`), and the action type is ASSIGN.  The guard does not look
at `assigned_resource`. -/
def is_valid_assignment_action (agent_map : Int → Option AgentEventRec)
    (res_map : Int → Option ResourceEventRec) (action : Option AgentAction) : Bool :=
  match action with
  | none => false
  | some a =>
    match agent_map a.agent_id, res_map a.res_id with
    | some ag, some _ => !has_res_pickup ag && (a.type == .ASSIGN)
    | _, _ => false

/-- `ResourceEvent._process_agent_action`: same guard but without the type
check. -/
def process_agent_action_guard (agent_map : Int → Option AgentEventRec)
    (res_map : Int → Option ResourceEventRec) (action : Option AgentAction) : Bool :=
  match action with
  | none => false
  | some a =>
    match agent_map a.agent_id, res_map a.res_id with
    | some ag, some _ => !has_res_pickup ag
    | _, _ => false

/-- `AgentEvent._assign_resource`: `assert self.assigned_resource is None`,
then store the resource. -/
def assign_resource (ag : AgentEventRec) (res_id : Int) : Except PyErr AgentEventRec :=
  match ag.assigned_resource with
  | some _ => .error .assertionError
  | none => .ok { ag with assigned_resource := some res_id }

/-- An engine state in which agent 0 is assigned to resource 5 but has not
yet picked it up, and resource 7 exists. -/
def demoAgentMap : Int → Option AgentEventRec :=
  fun i => if i = 0 then some { is_pickup := false, assigned_resource := some 5 } else none

def demoResMap : Int → Option ResourceEventRec :=
  fun i => if i = 7 then some (init_resource_event 0 100) else none

/-! ## Resource lifecycle (ResourceEvent.py) -/

/-- The state of one resource event as seen by the scheduler: the record, a
flag for membership in the simulator queue, and the number of times
`score.record_expiration()` has run (the EXPIRED trigger). -/
structure ResourceLifeState where
  ev : ResourceEventRec
  in_queue : Bool
  expired_count : Nat
  deriving DecidableEq

/-- The operations that touch a single resource event. -/
inductive ResourceOp where
  | trigger
  | pickup (t : Int)
  deriving DecidableEq

/-- One scheduler interaction with the resource event, from
`ResourceEvent.trigger` / `ResourceEvent.pickup`.
`trigger` models the main loop popping the event and calling `trigger()`:
when AVAILABLE, `_available` sets `time = expiration_time` and
`state = EXPIRED` and returns `self`, which the loop re-adds to the queue;
when EXPIRED, `_expire` asserts the resource was not picked up, records the
expiration, and returns None (the event is not re-queued).
`pickup t` models `pickup(t)` from `AgentEvent._pickup`: set
`pickup_time = t` and `simulator.remove_event(self)` (which raises when the
event is not queued).  `none` marks an operation the code would fault on. -/
def resource_step (s : ResourceLifeState) : ResourceOp → Option ResourceLifeState
  | .trigger =>
    if s.in_queue then
      match s.ev.state with
      | .AVAILABLE =>
          some { s with
            ev := { s.ev with time := s.ev.expiration_time, state := .EXPIRED }
            in_queue := true }
      | .EXPIRED =>
          if is_picked_up s.ev then none
          else some { s with in_queue := false, expired_count := s.expired_count + 1 }
    else none
  | .pickup t =>
    if s.in_queue then
      some { s with ev := { s.ev with pickup_time := t }, in_queue := false }
    else none

def resource_run (s : ResourceLifeState) : List ResourceOp → Option ResourceLifeState
  | [] => some s
  | op :: ops =>
    match resource_step s op with
    | none => none
    | some t => resource_run t ops

/-- A freshly constructed resource event sits in the queue. -/
def init_life (available_time max_life : Int) : ResourceLifeState :=
  { ev := init_resource_event available_time max_life, in_queue := true, expired_count := 0 }

lemma resource_run_append (l1 l2 : List ResourceOp) (s : ResourceLifeState) :
    resource_run s (l1 ++ l2) =
      match resource_run s l1 with
      | none => none
      | some t => resource_run t l2 := by
  induction l1 generalizing s with
  | nil => simp [resource_run]
  | cons op rest ih =>
      simp only [List.cons_append, resource_run]
      cases resource_step s op with
      | none => rfl
      | some t => exact ih t

lemma resource_run_dequeued (ops : List ResourceOp) (s u : ResourceLifeState)
    (hq : s.in_queue = false) (h : resource_run s ops = some u) : u = s := by
  cases ops with
  | nil => simpa [resource_run] using h.symm
  | cons op rest =>
      exfalso
      cases op <;> simp [resource_run, resource_step, hq] at h

/-- Scheduler invariant: the expiration counter never exceeds 1, and while
the event is still queued it is 0. -/
def resource_inv (s : ResourceLifeState) : Prop :=
  s.expired_count ≤ 1 ∧ (s.in_queue = true → s.expired_count = 0)

lemma resource_step_inv (s u : ResourceLifeState) (op : ResourceOp)
    (hI : resource_inv s) (h : resource_step s op = some u) : resource_inv u := by
  obtain ⟨h1, h2⟩ := hI
  cases op with
  | trigger =>
      by_cases hq : s.in_queue
      · have hc := h2 hq
        simp only [resource_step, hq, if_true] at h
        cases hst : s.ev.state with
        | AVAILABLE =>
            rw [hst] at h
            cases h
            simp [resource_inv, hc]
        | EXPIRED =>
            rw [hst] at h
            by_cases hp : is_picked_up s.ev
            · simp [hp] at h
            · simp only [hp, if_false, Bool.false_eq_true] at h
              cases h
              simp [resource_inv, hc]
      · simp [resource_step, hq] at h
  | pickup t =>
      by_cases hq : s.in_queue
      · have hc := h2 hq
        simp only [resource_step, hq, if_true] at h
        cases h
        exact ⟨h1, fun _ => hc⟩
      · simp [resource_step, hq] at h

lemma resource_run_inv (ops : List ResourceOp) (s u : ResourceLifeState)
    (hI : resource_inv s) (h : resource_run s ops = some u) : resource_inv u := by
  induction ops generalizing s with
  | nil =>
      simp only [resource_run] at h
      cases h
      exact hI
  | cons op rest ih =>
      simp only [resource_run] at h
      cases hs : resource_step s op with
      | none => rw [hs] at h; cases h
      | some t =>
          rw [hs] at h
          exact ih t (resource_step_inv s t op hI hs) h

/-- Invariant of pickup-free runs: queued with counter 0, or dequeued with
counter 1. -/
def resource_nopickup_inv (s : ResourceLifeState) : Prop :=
  (s.in_queue = true ∧ s.expired_count = 0) ∨ (s.in_queue = false ∧ s.expired_count = 1)

lemma resource_run_nopickup (ops : List ResourceOp) :
    ∀ s u, (∀ t, ResourceOp.pickup t ∉ ops) → resource_nopickup_inv s →
      resource_run s ops = some u → resource_nopickup_inv u := by
  induction ops with
  | nil =>
      intro s u _ hI h
      simp only [resource_run] at h
      cases h
      exact hI
  | cons op rest ih =>
      intro s u hops hI h
      simp only [resource_run] at h
      cases hs : resource_step s op with
      | none => rw [hs] at h; cases h
      | some t =>
          rw [hs] at h
          have hrest : ∀ x, ResourceOp.pickup x ∉ rest := by
            intro x hx
            exact hops x (List.mem_cons_of_mem _ hx)
          have hstep : resource_nopickup_inv t := by
            cases op with
            | pickup x => exact absurd (List.mem_cons_self _ _) (hops x)
            | trigger =>
                rcases hI with ⟨hq, hc⟩ | ⟨hq, hc⟩
                · simp only [resource_step, hq, if_true] at hs
                  cases hst : s.ev.state with
                  | AVAILABLE =>
                      rw [hst] at hs
                      cases hs
                      exact Or.inl ⟨rfl, hc⟩
                  | EXPIRED =>
                      rw [hst] at hs
                      by_cases hp : is_picked_up s.ev
                      · simp [hp] at hs
                      · simp only [hp, if_false, Bool.false_eq_true] at hs
                        cases hs
                        exact Or.inr ⟨rfl, by rw [hc]⟩
                · simp [resource_step, hq] at hs
          exact ih t u hrest hstep h

/-! ## Travel time between locations (COMSETsystem/CityMap.py) -/

/-- The else-branch of `CityMap._travel_time_between_locations`:
`end_source = LocationOnRoad(source.road, source.road.length)`,
`time_to_end = displacement / source.road.speed`,
`start_dest = LocationOnRoad(destination.road, 0)`,
`time_from_start = displacement / destination.road.speed`,
`time_between = path table lookup from source.road.to to destination.road.from_`.
A zero road speed raises ZeroDivisionError (uncaught here). -/
def travel_time_via_intersections (table : Nat → Nat → ℚ)
    (source destination : LocationOnRoad) : Except PyErr Int :=
  if source.road.speed = 0 ∨ destination.road.speed = 0 then .error .zeroDivision
  else
    .ok (pythonRound
      ((source.road.length - source.distance_from_start_intersection) / source.road.speed +
        table source.road.to_ destination.road.from_ +
        destination.distance_from_start_intersection / destination.road.speed))

/-- `CityMap._travel_time_between_locations`.  The condition
`source.road == destination.road` uses `Road.__eq__`, which compares the
endpoint intersections only; `get_displacement_on_road` then asserts equal
road ids.  In the same-road branch a zero speed hits the
`except ZeroDivisionError` handler (which calls `exit()`).  The final result
is `round(travel_time)` — Python's round, i.e. half to even. -/
def travel_time_between_locations (table : Nat → Nat → ℚ)
    (source destination : LocationOnRoad) : Except PyErr Int :=
  if source.road.from_ = destination.road.from_ ∧ source.road.to_ = destination.road.to_ then
    match get_displacement_on_road source destination with
    | .error e => .error e
    | .ok disp =>
      if 0 ≤ disp then
        if source.road.speed = 0 then .error .zeroDivision
        else .ok (pythonRound (disp / source.road.speed))
      else travel_time_via_intersections table source destination
  else travel_time_via_intersections table source destination

lemma travel_time_via_intersections_ok (table : Nat → Nat → ℚ)
    (source destination : LocationOnRoad)
    (hs : source.road.speed ≠ 0) (hd : destination.road.speed ≠ 0) :
    travel_time_via_intersections table source destination =
      .ok (pythonRound
        ((source.road.length - source.distance_from_start_intersection) / source.road.speed +
          table source.road.to_ destination.road.from_ +
          destination.distance_from_start_intersection / destination.road.speed)) := by
  unfold travel_time_via_intersections
  rw [if_neg]
  push_neg
  exact ⟨hs, hd⟩

/-! ## Traffic pattern (COMSETsystem/TrafficPattern.py) -/

structure TrafficPatternItem where
  epoch_begin_time : ℚ
  speed_factor : ℚ
  deriving DecidableEq

structure TrafficPattern where
  step : ℚ
  traffic_pattern : List TrafficPatternItem
  first_epoch_begin_time : ℚ
  first_epoch_speed_factor : ℚ
  last_epoch_begin_time : ℚ
  last_epoch_speed_factor : ℚ
  deriving DecidableEq

/-- `TrafficPattern.__init__` (the travel-time caches are semantically
transparent and omitted). -/
def TrafficPattern.init (step : ℚ) : TrafficPattern :=
  { step := step, traffic_pattern := [], first_epoch_begin_time := 0,
    first_epoch_speed_factor := 0, last_epoch_begin_time := 0,
    last_epoch_speed_factor := 0 }

/-- `TrafficPattern.add_traffic_pattern_item`. -/
def add_traffic_pattern_item (tp : TrafficPattern)
    (epoch_begin_time speed_factor : ℚ) : TrafficPattern :=
  let tp2 := { tp with
    traffic_pattern := tp.traffic_pattern ++
      [({ epoch_begin_time := epoch_begin_time, speed_factor := speed_factor } :
        TrafficPatternItem)] }
  let tp3 :=
    if tp2.traffic_pattern.length = 1 then
      { tp2 with first_epoch_begin_time := epoch_begin_time,
                 first_epoch_speed_factor := speed_factor }
    else tp2
  { tp3 with last_epoch_begin_time := epoch_begin_time,
             last_epoch_speed_factor := speed_factor }

/-- The while-loop of `TrafficPattern.dynamic_forward_travel_time`, with
explicit fuel (the Python loop is unbounded and can diverge on ill-formed
patterns; exhausted fuel is reported as `fuelExhausted`, never silently).
State: `total_distance`, `total_time`, `current_time`.  The index
computation `int((current_time - first_epoch_begin_time) // self.step)`
raises ZeroDivisionError when `step = 0`; a negative index would wrap
(Python list indexing), which `pyGet` reproduces. -/
def forward_travel_loop (tp : TrafficPattern) (unadjusted_speed distance : ℚ) :
    Nat → ℚ → ℚ → ℚ → Except PyErr ℚ
  | 0, _, _, _ => .error .fuelExhausted
  | fuel + 1, total_distance, total_time, current_time =>
    if total_distance < distance then
      if tp.step = 0 then .error .zeroDivision
      else
        let pattern_index : Int := ⌊(current_time - tp.first_epoch_begin_time) / tp.step⌋
        if pattern_index ≥ tp.traffic_pattern.length then
          let adjusted_speed := unadjusted_speed * tp.last_epoch_speed_factor
          if adjusted_speed = 0 then .error .zeroDivision
          else .ok (total_time + (distance - total_distance) / adjusted_speed)
        else
          match pyGet tp.traffic_pattern pattern_index with
          | none => .error .indexError
          | some item =>
            let adjusted_speed := unadjusted_speed * item.speed_factor
            let window_end_time := item.epoch_begin_time + tp.step
            let remaining_distance := distance - total_distance
            let time_in_window := window_end_time - current_time
            let distance_in_window := adjusted_speed * time_in_window
            if distance_in_window ≥ remaining_distance then
              if adjusted_speed = 0 then .error .zeroDivision
              else .ok (total_time + remaining_distance / adjusted_speed)
            else
              forward_travel_loop tp unadjusted_speed distance fuel
                (total_distance + distance_in_window) (total_time + time_in_window)
                window_end_time
    else .ok total_time

/-- `TrafficPattern.dynamic_forward_travel_time`: closed forms outside the
pattern's time range, the forward walk inside it. -/
def dynamic_forward_travel_time (tp : TrafficPattern)
    (time unadjusted_speed distance : ℚ) : Except PyErr ℚ :=
  if time ≥ tp.last_epoch_begin_time then
    let adjusted_speed := unadjusted_speed * tp.last_epoch_speed_factor
    if adjusted_speed = 0 then .error .zeroDivision
    else .ok (distance / adjusted_speed)
  else if time < tp.first_epoch_begin_time then
    let adjusted_speed := unadjusted_speed * tp.first_epoch_speed_factor
    if adjusted_speed = 0 then .error .zeroDivision
    else .ok (distance / adjusted_speed)
  else
    forward_travel_loop tp unadjusted_speed distance
      (tp.traffic_pattern.length + 1) 0 0 time

/-- The while-loop of `TrafficPattern.dynamic_travel_distance`.  Unlike
`dynamic_forward_travel_time`, the source has NO bounds check on
`pattern_index` before indexing `self.traffic_pattern`. -/
def travel_distance_loop (tp : TrafficPattern)
    (unadjusted_speed travel_time max_distance : ℚ) :
    Nat → ℚ → ℚ → ℚ → Except PyErr (ℚ × ℚ)
  | 0, _, _, _ => .error .fuelExhausted
  | fuel + 1, total_distance, total_time, current_time =>
    if total_time < travel_time ∧ total_distance < max_distance then
      if tp.step = 0 then .error .zeroDivision
      else
        let pattern_index : Int := ⌊(current_time - tp.first_epoch_begin_time) / tp.step⌋
        match pyGet tp.traffic_pattern pattern_index with
        | none => .error .indexError
        | some item =>
          let adjusted_speed := unadjusted_speed * item.speed_factor
          let window_end_time := item.epoch_begin_time + tp.step
          let remaining_time := travel_time - total_time
          let time_in_window := window_end_time - current_time
          let time_to_use := min time_in_window remaining_time
          let distance_in_window := adjusted_speed * time_to_use
          if total_distance + distance_in_window > max_distance then
            if adjusted_speed = 0 then .error .zeroDivision
            else .ok (max_distance,
              total_time + (max_distance - total_distance) / adjusted_speed)
          else
            travel_distance_loop tp unadjusted_speed travel_time max_distance fuel
              (total_distance + distance_in_window) (total_time + time_to_use)
              (current_time + time_to_use)
    else .ok (total_distance, total_time)

/-- `TrafficPattern.dynamic_travel_distance`: closed forms outside the
pattern's time range, the capped walk inside it. -/
def dynamic_travel_distance (tp : TrafficPattern)
    (time unadjusted_speed travel_time max_distance : ℚ) : Except PyErr (ℚ × ℚ) :=
  if time ≥ tp.last_epoch_begin_time then
    let adjusted_speed := unadjusted_speed * tp.last_epoch_speed_factor
    if adjusted_speed = 0 then .error .zeroDivision
    else
      let distance := min (travel_time * adjusted_speed) max_distance
      .ok (distance, distance / adjusted_speed)
  else if time < tp.first_epoch_begin_time then
    let adjusted_speed := unadjusted_speed * tp.first_epoch_speed_factor
    if adjusted_speed = 0 then .error .zeroDivision
    else
      let distance := min (travel_time * adjusted_speed) max_distance
      .ok (distance, distance / adjusted_speed)
  else
    travel_distance_loop tp unadjusted_speed travel_time max_distance
      (tp.traffic_pattern.length + 1) 0 0 time

/-- `TrafficPattern.travel_road_for_time_double`: walk
`dynamic_travel_distance` with the road's static speed capped at the road
length; if time ran out before the cap, return the end of the road,
otherwise build the displaced location (whose constructor asserts the
on-road bound). -/
def travel_road_for_time_double (tp : TrafficPattern) (time : ℚ)
    (location_on_road : LocationOnRoad) (travel_time : ℚ) :
    Except PyErr LocationOnRoad :=
  match dynamic_travel_distance tp time location_on_road.road.speed travel_time
      location_on_road.road.length with
  | .error e => .error e
  | .ok (distance, t) =>
    if t < travel_time then .ok (create_from_road_end location_on_road.road)
    else locationOnRoad_of_location location_on_road distance

/-- `TrafficPattern.road_forward_travel_time_double`: asserts
`loc1.upstream_to(loc2)` (same road id, non-negative displacement), then
integrates over the displacement at the road's static speed. -/
def road_forward_travel_time_double (tp : TrafficPattern) (time : ℚ)
    (loc1 loc2 : LocationOnRoad) : Except PyErr ℚ :=
  match get_displacement_on_road loc1 loc2 with
  | .error e => .error e
  | .ok disp =>
    if 0 ≤ disp then dynamic_forward_travel_time tp time loc1.road.speed disp
    else .error .assertionError

/-- A constant-factor pattern with two epochs, as
`build_sliding_traffic_pattern` would produce with `dynamic_traffic`
disabled: step 300, items [(0, 1.0), (300, 1.0)]. -/
def demoTP : TrafficPattern :=
  add_traffic_pattern_item (add_traffic_pattern_item (TrafficPattern.init 300) 0 1) 300 1

/-- A 900 m road with static speed 1 m/s (travel time 900 s). -/
def road900 : Road :=
  { id := 2, from_ := 0, to_ := 1, length := 900, travel_time := 900, speed := 1,
    links := [] }

lemma demoTP_eq :
    demoTP = { step := 300, traffic_pattern := [⟨0, 1⟩, ⟨300, 1⟩],
               first_epoch_begin_time := 0, first_epoch_speed_factor := 1,
               last_epoch_begin_time := 300, last_epoch_speed_factor := 1 } := by
  rfl

/-! ## Map copy (CityMap.make_copy)

Python object identity is modelled by tagging every heap object with an
allocation reference (`ref`); `make_copy` threads an allocation counter and
stamps every object it creates with a fresh reference, mirroring the
source's loops and its `vertices_copy` / `intersections_copy`
deduplication dictionaries.  The frozen `immutable_path_table` is carried
over by reference (`new_city_map.immutable_path_table =
self.immutable_path_table`), so the copy keeps the same `path_table_ref`. -/

structure VertexObj where
  ref : Nat
  vid : Nat
  deriving DecidableEq

structure LinkObj where
  ref : Nat
  lid : Nat
  from_vertex : VertexObj
  to_vertex : VertexObj
  deriving DecidableEq

structure IntersectionObj where
  ref : Nat
  iid : Nat
  deriving DecidableEq

structure RoadObj where
  ref : Nat
  rid : Nat
  fromI : IntersectionObj
  toI : IntersectionObj
  links : List LinkObj
  deriving DecidableEq

structure CityMapObj where
  intersections : List IntersectionObj
  roads : List RoadObj
  path_table_ref : Nat
  deriving DecidableEq

/-- The state threaded through `make_copy`: the `vertices_copy` and
`intersections_copy` dictionaries (keyed by object id) and the allocator. -/
structure CopySt where
  vertices_copy : List (Nat × VertexObj)
  intersections_copy : List (Nat × IntersectionObj)
  fresh : Nat
  deriving DecidableEq

/-- Python `dict.get` over an association list. -/
def dict_get {β : Type} : List (Nat × β) → Nat → Option β
  | [], _ => none
  | p :: rest, key => if key = p.1 then some p.2 else dict_get rest key

/-- `if from_vertex.id not in vertices_copy: vertices_copy[...] = Vertex(...)`:
reuse the copy made for this vertex id, else allocate a fresh `Vertex`. -/
def copy_vertex (st : CopySt) (v : VertexObj) : VertexObj × CopySt :=
  match dict_get st.vertices_copy v.vid with
  | some w => (w, st)
  | none =>
      let w : VertexObj := { ref := st.fresh, vid := v.vid }
      (w, { st with vertices_copy := (v.vid, w) :: st.vertices_copy,
                    fresh := st.fresh + 1 })

/-- `new_link = Link(vertices_copy[...], vertices_copy[...], aLink=link)`:
copy both endpoint vertices, then allocate a fresh `Link`. -/
def copy_link (st : CopySt) (l : LinkObj) : LinkObj × CopySt :=
  let r1 := copy_vertex st l.from_vertex
  let r2 := copy_vertex r1.2 l.to_vertex
  ({ ref := r2.2.fresh, lid := l.lid, from_vertex := r1.1, to_vertex := r2.1 },
   { r2.2 with fresh := r2.2.fresh + 1 })

/-- `for link in road.links: ... links_copy.append(new_link)`. -/
def copy_links (st : CopySt) : List LinkObj → List LinkObj × CopySt
  | [] => ([], st)
  | l :: ls =>
      let r1 := copy_link st l
      let r2 := copy_links r1.2 ls
      (r1.1 :: r2.1, r2.2)

/-- `if road.from_.id not in intersections_copy: ... Intersection(road.from_)`. -/
def copy_intersection (st : CopySt) (i : IntersectionObj) : IntersectionObj × CopySt :=
  match dict_get st.intersections_copy i.iid with
  | some j => (j, st)
  | none =>
      let j : IntersectionObj := { ref := st.fresh, iid := i.iid }
      (j, { st with intersections_copy := (i.iid, j) :: st.intersections_copy,
                    fresh := st.fresh + 1 })

/-- One iteration of the road loop: copy the links, both endpoint
intersections, then allocate a fresh `Road`. -/
def copy_road (st : CopySt) (r : RoadObj) : RoadObj × CopySt :=
  let r1 := copy_links st r.links
  let r2 := copy_intersection r1.2 r.fromI
  let r3 := copy_intersection r2.2 r.toI
  ({ ref := r3.2.fresh, rid := r.rid, fromI := r2.1, toI := r3.1, links := r1.1 },
   { r3.2 with fresh := r3.2.fresh + 1 })

def copy_roads (st : CopySt) : List RoadObj → List RoadObj × CopySt
  | [] => ([], st)
  | r :: rs =>
      let r1 := copy_road st r
      let r2 := copy_roads r1.2 rs
      (r1.1 :: r2.1, r2.2)

/-- `CityMap.make_copy`: iterate the roads (the source walks every
intersection's outgoing roads), building fresh vertices, links,
intersections and roads; the new map's intersections are the values of
`intersections_copy`, its roads the copied roads, and its path table the
very same object as the original's. -/
def make_copy (m : CityMapObj) (fresh0 : Nat) : CityMapObj :=
  let st0 : CopySt := { vertices_copy := [], intersections_copy := [], fresh := fresh0 }
  let r := copy_roads st0 m.roads
  { intersections := r.2.intersections_copy.map Prod.snd
    roads := r.1
    path_table_ref := m.path_table_ref }

/-- All allocation references reachable from an object. -/
def link_refs (l : LinkObj) : List Nat :=
  [l.ref, l.from_vertex.ref, l.to_vertex.ref]

def road_refs (r : RoadObj) : List Nat :=
  r.ref :: r.fromI.ref :: r.toI.ref :: r.links.flatMap link_refs

def map_refs (m : CityMapObj) : List Nat :=
  m.intersections.map IntersectionObj.ref ++ m.roads.flatMap road_refs

/-- Allocator invariant: the counter and every reference stored in the
dictionaries stay at or above the starting mark `n0`. -/
def st_inv (n0 : Nat) (st : CopySt) : Prop :=
  n0 ≤ st.fresh ∧
  (∀ p ∈ st.vertices_copy, n0 ≤ (Prod.snd p).ref) ∧
  (∀ p ∈ st.intersections_copy, n0 ≤ (Prod.snd p).ref)

lemma dict_get_prop {β : Type} (Q : β → Prop) (l : List (Nat × β)) (k : Nat) (v : β)
    (hl : ∀ p ∈ l, Q (Prod.snd p)) (h : dict_get l k = some v) : Q v := by
  induction l with
  | nil => simp [dict_get] at h
  | cons p rest ih =>
      rw [dict_get] at h
      by_cases hk : k = p.1
      · rw [if_pos hk] at h
        cases h
        exact hl p (List.mem_cons_self _ _)
      · rw [if_neg hk] at h
        exact ih (fun q hq => hl q (List.mem_cons_of_mem _ hq)) h

lemma copy_vertex_spec (n0 : Nat) (st : CopySt) (v : VertexObj) (h : st_inv n0 st) :
    st_inv n0 (copy_vertex st v).2 ∧ n0 ≤ (copy_vertex st v).1.ref := by
  obtain ⟨h1, h2, h3⟩ := h
  cases hl : dict_get st.vertices_copy v.vid with
  | some w =>
      simp only [copy_vertex, hl]
      exact ⟨⟨h1, h2, h3⟩, dict_get_prop (fun w => n0 ≤ w.ref) _ _ _ h2 hl⟩
  | none =>
      simp only [copy_vertex, hl]
      refine ⟨⟨Nat.le_succ_of_le h1, ?_, h3⟩, h1⟩
      intro p hp
      rcases List.mem_cons.mp hp with rfl | hp
      · exact h1
      · exact h2 p hp

lemma copy_link_spec (n0 : Nat) (st : CopySt) (l : LinkObj) (h : st_inv n0 st) :
    st_inv n0 (copy_link st l).2 ∧ ∀ r ∈ link_refs (copy_link st l).1, n0 ≤ r := by
  obtain ⟨hA, hv1⟩ := copy_vertex_spec n0 st l.from_vertex h
  obtain ⟨hB, hv2⟩ := copy_vertex_spec n0 (copy_vertex st l.from_vertex).2 l.to_vertex hA
  obtain ⟨hB1, hB2, hB3⟩ := hB
  constructor
  · exact ⟨by simp [copy_link]; omega, by simpa [copy_link] using hB2,
      by simpa [copy_link] using hB3⟩
  · intro r hr
    simp only [copy_link, link_refs, List.mem_cons, List.mem_singleton] at hr
    rcases hr with rfl | rfl | rfl | hr
    · exact hB1
    · exact hv1
    · exact hv2
    · simp at hr

lemma copy_links_spec (n0 : Nat) (ls : List LinkObj) :
    ∀ st, st_inv n0 st →
      st_inv n0 (copy_links st ls).2 ∧
      ∀ l ∈ (copy_links st ls).1, ∀ r ∈ link_refs l, n0 ≤ r := by
  induction ls with
  | nil =>
      intro st h
      exact ⟨h, by simp [copy_links]⟩
  | cons l rest ih =>
      intro st h
      obtain ⟨hA, hrefs⟩ := copy_link_spec n0 st l h
      obtain ⟨hB, hall⟩ := ih (copy_link st l).2 hA
      constructor
      · simpa [copy_links] using hB
      · intro x hx
        simp only [copy_links, List.mem_cons] at hx
        rcases hx with rfl | hx
        · exact hrefs
        · exact hall x hx

lemma copy_intersection_spec (n0 : Nat) (st : CopySt) (i : IntersectionObj)
    (h : st_inv n0 st) :
    st_inv n0 (copy_intersection st i).2 ∧ n0 ≤ (copy_intersection st i).1.ref := by
  obtain ⟨h1, h2, h3⟩ := h
  cases hl : dict_get st.intersections_copy i.iid with
  | some j =>
      simp only [copy_intersection, hl]
      exact ⟨⟨h1, h2, h3⟩, dict_get_prop (fun j => n0 ≤ j.ref) _ _ _ h3 hl⟩
  | none =>
      simp only [copy_intersection, hl]
      refine ⟨⟨Nat.le_succ_of_le h1, h2, ?_⟩, h1⟩
      intro p hp
      rcases List.mem_cons.mp hp with rfl | hp
      · exact h1
      · exact h3 p hp

lemma copy_road_spec (n0 : Nat) (st : CopySt) (r : RoadObj) (h : st_inv n0 st) :
    st_inv n0 (copy_road st r).2 ∧ ∀ x ∈ road_refs (copy_road st r).1, n0 ≤ x := by
  obtain ⟨hA, hlinks⟩ := copy_links_spec n0 r.links st h
  obtain ⟨hB, hfi⟩ := copy_intersection_spec n0 (copy_links st r.links).2 r.fromI hA
  obtain ⟨hC, hti⟩ :=
    copy_intersection_spec n0 (copy_intersection (copy_links st r.links).2 r.fromI).2 r.toI hB
  obtain ⟨hC1, hC2, hC3⟩ := hC
  constructor
  · exact ⟨by simp [copy_road]; omega, by simpa [copy_road] using hC2,
      by simpa [copy_road] using hC3⟩
  · intro x hx
    simp only [copy_road, road_refs, List.mem_cons] at hx
    rcases hx with rfl | rfl | rfl | hx
    · exact hC1
    · exact hfi
    · exact hti
    · obtain ⟨l, hl, hxl⟩ := List.mem_flatMap.mp hx
      exact hlinks l hl x hxl

lemma copy_roads_spec (n0 : Nat) (rs : List RoadObj) :
    ∀ st, st_inv n0 st →
      st_inv n0 (copy_roads st rs).2 ∧
      ∀ r ∈ (copy_roads st rs).1, ∀ x ∈ road_refs r, n0 ≤ x := by
  induction rs with
  | nil =>
      intro st h
      exact ⟨h, by simp [copy_roads]⟩
  | cons r rest ih =>
      intro st h
      obtain ⟨hA, hrefs⟩ := copy_road_spec n0 st r h
      obtain ⟨hB, hall⟩ := ih (copy_road st r).2 hA
      constructor
      · simpa [copy_roads] using hB
      · intro x hx
        simp only [copy_roads, List.mem_cons] at hx
        rcases hx with rfl | hx
        · exact hrefs
        · exact hall x hx

lemma make_copy_refs_fresh (m : CityMapObj) (fresh0 : Nat) :
    ∀ x ∈ map_refs (make_copy m fresh0), fresh0 ≤ x := by
  have h0 : st_inv fresh0 ⟨[], [], fresh0⟩ := ⟨le_refl _, by simp, by simp⟩
  obtain ⟨⟨-, -, hdict⟩, hroads⟩ := copy_roads_spec fresh0 m.roads ⟨[], [], fresh0⟩ h0
  intro x hx
  simp only [make_copy, map_refs, List.mem_append] at hx
  rcases hx with hx | hx
  · obtain ⟨i, hi, rfl⟩ := List.mem_map.mp hx
    obtain ⟨p, hp, rfl⟩ := List.mem_map.mp hi
    exact hdict p hp
  · obtain ⟨r, hr, hxr⟩ := List.mem_flatMap.mp hx
    exact hroads r hr x hxr

/-! ## Claim theorems -/

/-- Claim C4.  The claim says every constructed `LocationOnRoad` satisfies
`0 ≤ distance ≤ road.length`.  The Road-mode constructor performs no check,
and `MapWithData._process_batch` passes the matched link's `begin_time` — a
cumulative travel time in seconds — as a distance in meters.  On `slowRoad`
(first link 10 m at 0.5 m/s) the second link's begin time is 20 while the
road is 11 m long, so the constructed location violates the bound.  This
theorem evaluates the code at that failing input. -/
theorem claim_C4_location_bound_violated :
    slowRoad.links.get? 1 = some ⟨1, 1, 1, 1, 20⟩ ∧
    (process_batch_match slowRoad ⟨1, 1, 1, 1, 20⟩).distance_from_start_intersection = 20 ∧
    slowRoad.length = 11 ∧
    ¬ (process_batch_match slowRoad ⟨1, 1, 1, 1, 20⟩).distance_from_start_intersection
        ≤ slowRoad.length := by
  have hroad : slowRoad =
      { id := 0, from_ := 0, to_ := 1, length := 11, travel_time := 21, speed := 11/21,
        links := [⟨0, 10, 1/2, 20, 0⟩, ⟨1, 1, 1, 1, 20⟩] } := by
    simp only [slowRoad, build_road, empty_road, add_link, set_speed, List.foldl_cons,
      List.foldl_nil, List.nil_append, List.singleton_append, Road.mk.injEq,
      Link.mk.injEq, List.cons.injEq]
    norm_num
  rw [hroad]
  refine ⟨rfl, rfl, rfl, ?_⟩
  simp only [process_batch_match, locationOnRoad_of_road]
  norm_num

/-- Claim C2 counterexample: agent 0 is already assigned to resource 5 (but
has not picked it up, so `has_res_pickup` is false); resource 7 exists.  The
guard `_is_valid_assignment_action` accepts `ASSIGN(agent 0, resource 7)`
even though the agent is already assigned to another resource, and
`_assign_resource` then fails its `assert self.assigned_resource is None`. -/
theorem claim_C2_counterexample :
    is_valid_assignment_action demoAgentMap demoResMap
        (some { agent_id := 0, res_id := 7, type := .ASSIGN }) = true ∧
    demoAgentMap 0 = some { is_pickup := false, assigned_resource := some 5 } ∧
    assign_resource { is_pickup := false, assigned_resource := some 5 } 7 =
      .error .assertionError := by
  decide

/-- Claim C2 (amended): the guard checks that both ids resolve, that the
named agent is not carrying a resource, and that the action type is ASSIGN —
it does not check for an existing assignment.  Under the guard together with
the extra condition that the agent has no assigned resource, the assertion
in `_assign_resource` never fails and the agent is wired to the resource. -/
theorem claim_C2_assignment_guard (agent_map : Int → Option AgentEventRec)
    (res_map : Int → Option ResourceEventRec) (a : AgentAction) (ag : AgentEventRec)
    (hag : agent_map a.agent_id = some ag)
    (hvalid : is_valid_assignment_action agent_map res_map (some a) = true) :
    (res_map a.res_id).isSome = true ∧ has_res_pickup ag = false ∧
    a.type = .ASSIGN ∧
    (ag.assigned_resource = none →
      assign_resource ag a.res_id = .ok { ag with assigned_resource := some a.res_id }) := by
  simp only [is_valid_assignment_action, hag] at hvalid
  cases hres : res_map a.res_id with
  | none =>
      rw [hres] at hvalid
      simp at hvalid
  | some r =>
      rw [hres] at hvalid
      simp only [Bool.and_eq_true, Bool.not_eq_true', beq_iff_eq] at hvalid
      refine ⟨by simp [hres], hvalid.1, hvalid.2, ?_⟩
      intro hnone
      simp [assign_resource, hnone]

def demoAgentMapFree : Int → Option AgentEventRec :=
  fun i => if i = 0 then some { is_pickup := false, assigned_resource := none } else none

/-- Witness for the amended C2 at a concrete unassigned agent. -/
theorem claim_C2_assignment_guard_witness :
    (demoResMap (AgentAction.mk 0 7 .ASSIGN).res_id).isSome = true ∧
    has_res_pickup ⟨false, none⟩ = false ∧
    (AgentAction.mk 0 7 .ASSIGN).type = .ASSIGN ∧
    ((⟨false, none⟩ : AgentEventRec).assigned_resource = none →
      assign_resource ⟨false, none⟩ (AgentAction.mk 0 7 .ASSIGN).res_id =
        .ok { (⟨false, none⟩ : AgentEventRec) with
              assigned_resource := some (AgentAction.mk 0 7 .ASSIGN).res_id }) :=
  claim_C2_assignment_guard demoAgentMapFree demoResMap (AgentAction.mk 0 7 .ASSIGN)
    ⟨false, none⟩ (by decide) (by decide)

/-- Claim C3: the first trigger of a resource event (state AVAILABLE)
reschedules it exactly once, to `expiration_time = available_time + max_life`
in state EXPIRED; a pickup records the pickup time and removes the event
from the queue, after which the EXPIRED trigger can never run; in every
fault-free schedule the EXPIRED trigger fires at most once, and in every
pickup-free schedule that drains the event from the queue it fires exactly
once. -/
theorem claim_C3_resource_lifecycle (a m t : Int) (ops : List ResourceOp) :
    resource_step (init_life a m) .trigger =
      some { ev := { state := .EXPIRED, time := a + m, available_time := a,
                     expiration_time := a + m, pickup_time := -1 },
             in_queue := true, expired_count := 0 } ∧
    (∀ s, resource_run (init_life a m) ops = some s → s.expired_count ≤ 1) ∧
    (∀ s l2, resource_run (init_life a m) (ops ++ ResourceOp.pickup t :: l2) = some s →
      s.ev.pickup_time = t ∧ s.in_queue = false ∧ s.expired_count = 0) ∧
    ((∀ u, ResourceOp.pickup u ∉ ops) →
      ∀ s, resource_run (init_life a m) ops = some s → s.in_queue = false →
        s.expired_count = 1) := by
  have hinit : resource_inv (init_life a m) := by
    constructor <;> simp [init_life]
  refine ⟨rfl, ?_, ?_, ?_⟩
  · intro s h
    exact (resource_run_inv ops (init_life a m) s hinit h).1
  · intro s l2 h
    rw [resource_run_append] at h
    cases hu : resource_run (init_life a m) ops with
    | none => rw [hu] at h; cases h
    | some u =>
        rw [hu] at h
        simp only [resource_run] at h
        cases hstep : resource_step u (.pickup t) with
        | none => rw [hstep] at h; cases h
        | some v =>
            rw [hstep] at h
            have hinv := resource_run_inv ops (init_life a m) u hinit hu
            by_cases hq : u.in_queue
            · simp only [resource_step, hq, if_true] at hstep
              cases hstep
              have hs := resource_run_dequeued l2 _ s rfl h
              subst hs
              exact ⟨rfl, rfl, hinv.2 hq⟩
            · simp [resource_step, hq] at hstep
  · intro hops s h hq
    have h0 : resource_nopickup_inv (init_life a m) := Or.inl ⟨rfl, rfl⟩
    rcases resource_run_nopickup ops (init_life a m) s hops h0 h with ⟨hq2, _⟩ | ⟨_, hc⟩
    · rw [hq] at hq2
      cases hq2
    · exact hc

/-- Witness for C3 at available time 0, max life 10: two triggers expire the
resource exactly once; a trigger followed by pickup at time 5 leaves it
picked up, dequeued, and never expired. -/
theorem claim_C3_resource_lifecycle_witness :
    (⟨⟨.EXPIRED, 10, 0, 10, -1⟩, false, 1⟩ : ResourceLifeState).expired_count ≤ 1 ∧
    ((⟨⟨.EXPIRED, 10, 0, 10, 5⟩, false, 0⟩ : ResourceLifeState).ev.pickup_time = 5 ∧
      (⟨⟨.EXPIRED, 10, 0, 10, 5⟩, false, 0⟩ : ResourceLifeState).in_queue = false ∧
      (⟨⟨.EXPIRED, 10, 0, 10, 5⟩, false, 0⟩ : ResourceLifeState).expired_count = 0) ∧
    (⟨⟨.EXPIRED, 10, 0, 10, -1⟩, false, 1⟩ : ResourceLifeState).expired_count = 1 :=
  ⟨(claim_C3_resource_lifecycle 0 10 5 [.trigger, .trigger]).2.1 _ (by decide),
   (claim_C3_resource_lifecycle 0 10 5 [.trigger]).2.2.1 _ [] (by decide),
   (claim_C3_resource_lifecycle 0 10 5 [.trigger, .trigger]).2.2.2
     (by intro u hu; simp [List.mem_cons] at hu) _ (by decide) rfl⟩

/-- Claim C5: `travel_time_between` on two locations returns
`round((dst.d - src.d) / road.speed)` when both are on the same road with
`src.d ≤ dst.d`, and otherwise `round(time to the end of the source road +
path-table time + time from the start of the destination road)`; in both
cases the result is an integer (`round` is Python's half-to-even).
`hroads` rules out the degenerate aliasing of two distinct roads sharing
both endpoints, which cannot occur in a loader-built map (`roads_map_from`
is keyed by the neighbor intersection); nonzero speeds avoid the
ZeroDivisionError paths. -/
theorem claim_C5_travel_time_between (table : Nat → Nat → ℚ)
    (src dst : LocationOnRoad)
    (hs : src.road.speed ≠ 0) (hd : dst.road.speed ≠ 0)
    (hroads : src.road = dst.road ∨
      src.road.from_ ≠ dst.road.from_ ∨ src.road.to_ ≠ dst.road.to_) :
    (src.road = dst.road →
      src.distance_from_start_intersection ≤ dst.distance_from_start_intersection →
      travel_time_between_locations table src dst =
        .ok (pythonRound ((dst.distance_from_start_intersection -
            src.distance_from_start_intersection) / src.road.speed))) ∧
    (¬ (src.road = dst.road ∧
        src.distance_from_start_intersection ≤ dst.distance_from_start_intersection) →
      travel_time_between_locations table src dst =
        .ok (pythonRound
          ((src.road.length - src.distance_from_start_intersection) / src.road.speed +
            table src.road.to_ dst.road.from_ +
            dst.distance_from_start_intersection / dst.road.speed))) := by
  constructor
  · intro heq hle
    have hid : src.road.id = dst.road.id := by rw [heq]
    have hdisp : get_displacement_on_road src dst =
        .ok (dst.distance_from_start_intersection -
          src.distance_from_start_intersection) := by
      unfold get_displacement_on_road
      rw [if_pos hid]
    have hge : (0:ℚ) ≤ dst.distance_from_start_intersection -
        src.distance_from_start_intersection := by linarith
    unfold travel_time_between_locations
    rw [if_pos ⟨by rw [heq], by rw [heq]⟩, hdisp]
    simp only [if_pos hge, if_neg hs]
  · intro hn
    rcases hroads with heq | hne
    · have hlt : dst.distance_from_start_intersection <
          src.distance_from_start_intersection := by
        by_contra hcon
        push_neg at hcon
        exact hn ⟨heq, hcon⟩
      have hid : src.road.id = dst.road.id := by rw [heq]
      have hdisp : get_displacement_on_road src dst =
          .ok (dst.distance_from_start_intersection -
            src.distance_from_start_intersection) := by
        unfold get_displacement_on_road
        rw [if_pos hid]
      have hneg : ¬ (0:ℚ) ≤ dst.distance_from_start_intersection -
          src.distance_from_start_intersection := by linarith
      unfold travel_time_between_locations
      rw [if_pos ⟨by rw [heq], by rw [heq]⟩, hdisp]
      simp only [if_neg hneg]
      exact travel_time_via_intersections_ok table src dst hs hd
    · unfold travel_time_between_locations
      rw [if_neg (by tauto)]
      exact travel_time_via_intersections_ok table src dst hs hd

/-- A 100 m road with static speed 10 m/s, and the reverse road. -/
def roadA : Road :=
  { id := 10, from_ := 0, to_ := 1, length := 100, travel_time := 10, speed := 10,
    links := [] }

def roadB : Road :=
  { id := 11, from_ := 1, to_ := 0, length := 50, travel_time := 5, speed := 10,
    links := [] }

/-- Witness for C5: the same-road forward case on `roadA` and the
cross-road case from `roadA` to `roadB`. -/
theorem claim_C5_travel_time_between_witness :
    travel_time_between_locations (fun _ _ => (7:ℚ)) ⟨roadA, 30⟩ ⟨roadA, 80⟩ =
      .ok (pythonRound (((⟨roadA, 80⟩ : LocationOnRoad).distance_from_start_intersection -
          (⟨roadA, 30⟩ : LocationOnRoad).distance_from_start_intersection) /
          (⟨roadA, 30⟩ : LocationOnRoad).road.speed)) ∧
    travel_time_between_locations (fun _ _ => (7:ℚ)) ⟨roadA, 30⟩ ⟨roadB, 20⟩ =
      .ok (pythonRound
        (((⟨roadA, 30⟩ : LocationOnRoad).road.length -
            (⟨roadA, 30⟩ : LocationOnRoad).distance_from_start_intersection) /
            (⟨roadA, 30⟩ : LocationOnRoad).road.speed +
          (fun _ _ => (7:ℚ)) (⟨roadA, 30⟩ : LocationOnRoad).road.to_
            (⟨roadB, 20⟩ : LocationOnRoad).road.from_ +
          (⟨roadB, 20⟩ : LocationOnRoad).distance_from_start_intersection /
            (⟨roadB, 20⟩ : LocationOnRoad).road.speed)) :=
  ⟨(claim_C5_travel_time_between (fun _ _ => (7:ℚ)) ⟨roadA, 30⟩ ⟨roadA, 80⟩
      (by norm_num [roadA]) (by norm_num [roadA]) (Or.inl rfl)).1 rfl (by norm_num),
   (claim_C5_travel_time_between (fun _ _ => (7:ℚ)) ⟨roadA, 30⟩ ⟨roadB, 20⟩
      (by norm_num [roadA]) (by norm_num [roadB])
      (Or.inr (Or.inl (by norm_num [roadA, roadB])))).2
      (by
        rintro ⟨heq, -⟩
        have : roadA.id = roadB.id := by rw [show roadA = roadB from heq]
        norm_num [roadA, roadB] at this)⟩

/-- Claim C6.  The claim says `position_after(t, loc, 0) = loc` and, under a
constant-factor pattern, traveling from the start of a road for exactly its
dynamic traversal time returns the end of the road.  The zero-duration part
holds (third conjunct, at a sample input), but the round trip does not: on
the two-epoch constant pattern `demoTP`, the dynamic traversal time of
`road900` from time 0 is 900 s (first conjunct), yet
`travel_road_for_time_double` raises IndexError (second conjunct), because
`dynamic_travel_distance` — unlike `dynamic_forward_travel_time` — indexes
`traffic_pattern[pattern_index]` without the bounds check, and the walk
steps past the last epoch.  This theorem evaluates the code at that failing
input. -/
theorem claim_C6_position_round_trip_eval :
    road_forward_travel_time_double demoTP 0 (create_from_road_start road900)
        (create_from_road_end road900) = .ok 900 ∧
    travel_road_for_time_double demoTP 0 (create_from_road_start road900) 900 =
      .error .indexError ∧
    travel_road_for_time_double demoTP 5 (locationOnRoad_of_road road900 250) 0 =
      .ok (locationOnRoad_of_road road900 250) := by
  refine ⟨?_, ?_, ?_⟩
  · norm_num [road_forward_travel_time_double, get_displacement_on_road,
      create_from_road_start, create_from_road_end, locationOnRoad_of_road, road900,
      dynamic_forward_travel_time, demoTP_eq, forward_travel_loop, pyGet]
  · norm_num [travel_road_for_time_double, create_from_road_start,
      create_from_road_end, locationOnRoad_of_road, road900,
      dynamic_travel_distance, demoTP_eq, travel_distance_loop, pyGet, min_def]
    simp
  · norm_num [travel_road_for_time_double, locationOnRoad_of_road, road900,
      dynamic_travel_distance, demoTP_eq, travel_distance_loop,
      locationOnRoad_of_location]

/-- Claim C8: `make_copy` returns a map whose intersections, vertices, links
and roads are all fresh objects — no reference reachable from the copy's
graph coincides with a reference of the original's graph — while the
`immutable_path_table` is the very same object (same reference).  Hence
updating the heap at any reference of the copy leaves the content at every
reference of the engine's map unchanged. -/
theorem claim_C8_make_copy_fresh (α : Type) (m : CityMapObj) (fresh0 : Nat)
    (hold : ∀ r ∈ map_refs m, r < fresh0) :
    (∀ x ∈ map_refs (make_copy m fresh0), x ∉ map_refs m) ∧
    (make_copy m fresh0).path_table_ref = m.path_table_ref ∧
    (∀ (store : Nat → α) (x : Nat) (v : α), x ∈ map_refs (make_copy m fresh0) →
      ∀ y ∈ map_refs m, Function.update store x v y = store y) := by
  have hfresh := make_copy_refs_fresh m fresh0
  have hdisj : ∀ x ∈ map_refs (make_copy m fresh0), x ∉ map_refs m := by
    intro x hx hxm
    have h1 := hold x hxm
    have h2 := hfresh x hx
    omega
  refine ⟨hdisj, rfl, ?_⟩
  intro store x v hx y hy
  have hxy : y ≠ x := by
    intro he
    exact hdisj x hx (he ▸ hy)
  exact Function.update_noteq hxy v store

/-- A two-intersection map with one road of one link, every object tagged
with a distinct reference below 10. -/
def demoMap : CityMapObj :=
  { intersections := [⟨0, 0⟩, ⟨1, 1⟩]
    roads := [⟨2, 0, ⟨0, 0⟩, ⟨1, 1⟩, [⟨3, 0, ⟨4, 0⟩, ⟨5, 1⟩⟩]⟩]
    path_table_ref := 6 }

/-- Witness for C8: copying `demoMap` with the allocator at 10, the copied
road (reference 15) is not an object of the original, the path table
reference is shared, and updating the heap at the copied road leaves the
original intersection at reference 0 unchanged. -/
theorem claim_C8_make_copy_fresh_witness :
    (15:Nat) ∉ map_refs demoMap ∧
    (make_copy demoMap 10).path_table_ref = demoMap.path_table_ref ∧
    Function.update (fun _ => (0:Nat)) 15 99 0 = (fun _ => (0:Nat)) 0 :=
  ⟨(claim_C8_make_copy_fresh Nat demoMap 10 (by decide)).1 15 (by decide),
   (claim_C8_make_copy_fresh Nat demoMap 10 (by decide)).2.1,
   (claim_C8_make_copy_fresh Nat demoMap 10 (by decide)).2.2 (fun _ => 0) 15 99
     (by decide) 0 (by decide)⟩

/-- Claim C1.  The claim says every AgentEvent carries a smaller priority than
every ResourceEvent so that at equal times the agent triggers first.  In the
code `AgentEvent.__init__` never passes `AGENT_EVENT_PRIORITY`, so both event
kinds get `DEFAULT_EVENT_PRIORITY`; the tie falls through to the id
comparison, and a resource event with a smaller id (resources are constructed
before agents) compares less than a same-time agent event and is popped
first.  This theorem evaluates the code at such a failing input. -/
theorem claim_C1_same_tick_resource_first :
    (mkAgentEvent 1 100).priority = DEFAULT_EVENT_PRIORITY ∧
    (mkResourceEvent 0 100).priority = DEFAULT_EVENT_PRIORITY ∧
    AGENT_EVENT_PRIORITY ≠ DEFAULT_EVENT_PRIORITY ∧
    event_lt (mkResourceEvent 0 100) (mkAgentEvent 1 100) = some true ∧
    event_lt (mkAgentEvent 1 100) (mkResourceEvent 0 100) = some false := by
  decide

/-- Claim C7: for every road built by a sequence of `add_link` calls followed
by `set_speed`, the road length is the sum of the link lengths, the road
travel time is the sum of the link travel times, the speed is
length / travel_time, and each link's `begin_time` is the sum of the travel
times of the links added before it. -/
theorem claim_C7_road_composition (rid fromI toI : Nat) (ls : List Link) :
    (build_road rid fromI toI ls).length = (ls.map Link.length).sum ∧
    (build_road rid fromI toI ls).travel_time = (ls.map Link.travel_time).sum ∧
    (build_road rid fromI toI ls).speed =
      (build_road rid fromI toI ls).length / (build_road rid fromI toI ls).travel_time ∧
    ∀ i (h : i < (build_road rid fromI toI ls).links.length),
      ((build_road rid fromI toI ls).links.get ⟨i, h⟩).begin_time =
        ((ls.take i).map Link.travel_time).sum := by
  obtain ⟨h1, h2, h3, _, _⟩ := foldl_add_link_spec ls (empty_road rid fromI toI)
  have hlinks : (build_road rid fromI toI ls).links =
      annotate_begin_times 0 ls := by
    simp only [build_road, set_speed]
    rw [h3]
    simp [empty_road]
  refine ⟨?_, ?_, ?_, ?_⟩
  · simp only [build_road, set_speed]
    rw [h1]
    simp [empty_road]
  · simp only [build_road, set_speed]
    rw [h2]
    simp [empty_road]
  · simp only [build_road, set_speed]
  · intro i h
    have h2' : i < (annotate_begin_times 0 ls).length := by rw [← hlinks]; exact h
    have := annotate_begin_times_get ls 0 i h2'
    calc ((build_road rid fromI toI ls).links.get ⟨i, h⟩).begin_time
        = ((annotate_begin_times 0 ls).get ⟨i, h2'⟩).begin_time := by
          congr 1
          exact List.get_of_eq hlinks ⟨i, h⟩
      _ = ((ls.take i).map Link.travel_time).sum := by rw [this, zero_add]

/-- Witness for C7 at a concrete two-link road: the second link's begin time
is the first link's travel time. -/
theorem claim_C7_road_composition_witness :
    ((build_road 0 0 1 [⟨0, 10, 2, 5, 0⟩, ⟨1, 6, 3, 2, 0⟩]).links.get
        ⟨1, by decide⟩).begin_time =
      (([(⟨0, 10, 2, 5, 0⟩ : Link), ⟨1, 6, 3, 2, 0⟩].take 1).map Link.travel_time).sum :=
  (claim_C7_road_composition 0 0 1 [⟨0, 10, 2, 5, 0⟩, ⟨1, 6, 3, 2, 0⟩]).2.2.2 1 (by decide)

/-- Claim C9: `Simulator.add_event` raises exactly when the event time is
strictly before the current simulation time (leaving the queue untouched:
no successor state is produced), and otherwise pushes the event. -/
theorem claim_C9_add_event (s : SimQueue) (e : Event) :
    (add_event s e = .error .valueError ↔ e.time < s.simulation_time) ∧
    ∀ t, add_event s e = .ok t →
      t.events = e :: s.events ∧ t.simulation_time = s.simulation_time := by
  unfold add_event
  constructor
  · split <;> simp_all
  · intro t h
    split at h
    · cases h
    · cases h
      exact ⟨rfl, rfl⟩

/-- Witness for C9: adding a future event at a concrete state pushes it. -/
theorem claim_C9_add_event_witness :
    ({ events := [mkAgentEvent 0 7], simulation_time := 5 } : SimQueue).events =
        mkAgentEvent 0 7 :: (⟨[], 5⟩ : SimQueue).events ∧
    ({ events := [mkAgentEvent 0 7], simulation_time := 5 } : SimQueue).simulation_time =
        (⟨[], 5⟩ : SimQueue).simulation_time :=
  (claim_C9_add_event ⟨[], 5⟩ (mkAgentEvent 0 7)).2 _ rfl

/-- Claim C10: starting from the empty sets of `Simulator.__init__`, every
sequence of `mark_agent_empty` / `mark_agent_serving` calls (including the
ones made by `_assign_resource` and `_unassign_resource`) keeps
`empty_agents` and `serving_agents` disjoint. -/
theorem claim_C10_empty_serving_disjoint (ops : List AgentSetOp) :
    (run_agent_set_ops ops).empty_agents ∩ (run_agent_set_ops ops).serving_agents = ∅ :=
  foldl_disjoint ops initial_agent_sets (by simp [initial_agent_sets])

end COMSET
